import Mathlib

/-! Overview.

Verification of the MewgenicsRenamer core against its specification.

The development shallowly embeds the Python source files `blob_parser.py`,
`name_modifier.py`, `save_manager.py` and `gpak_manager.py`:

* bytes become `List Nat` (each element a byte value below 256 in
  well-formed data);
* Python `str` values become `List Nat` of Unicode code points, with the
  UTF-16LE / UTF-8 codecs written out explicitly;
* the external LZ4 block codec (`lz4.block.compress` / `lz4.block.decompress`)
  is a parameter of every definition that uses it — `decompress` returning
  `none` models `LZ4BlockError`;
* Python `str.isprintable` (which consults the Unicode category database)
  is likewise a parameter `pyIsPrintable : Nat → Bool`;
* the SQLite row store and the filesystem are passed explicitly as
  association lists, with the possibly-faulty operations (row update,
  file copy) as parameters so that fault-injection properties are statable;
* fallible code returns `Except`, keeping the error messages of the source.
-/

namespace Mewgenics

/-- Byte strings are lists of naturals (each < 256 in well-formed data). -/
abbrev Bytes := List Nat

/-- Python strings are lists of Unicode code points. -/
abbrev PyStr := List Nat

/-- Models `struct.unpack_from` with format `<I`: little-endian u32 read.  Every call
site in the source guards the bounds first, so out-of-range positions
(read as 0 here) never arise where this total reader is used. -/
def readU32 (b : Bytes) (off : Nat) : Nat :=
  b.getD off 0 + 256 * b.getD (off + 1) 0 + 65536 * b.getD (off + 2) 0
    + 16777216 * b.getD (off + 3) 0

/-- Little-endian u16 read (same guarded-use convention as `readU32`). -/
def readU16 (b : Bytes) (off : Nat) : Nat :=
  b.getD off 0 + 256 * b.getD (off + 1) 0

/-- Models `struct.pack` with format `<I`: the four little-endian bytes of `n`. -/
def packU32 (n : Nat) : Bytes :=
  [n % 256, n / 256 % 256, n / 65536 % 256, n / 16777216 % 256]

/-- Bounds-checked u16 read; `none` models the `struct.error` that
`struct.unpack_from` raises when fewer than 2 bytes remain. -/
def readU16Opt (b : Bytes) (off : Nat) : Option Nat :=
  if off + 2 ≤ b.length then some (readU16 b off) else none

/-- Bounds-checked u32 read; `none` models `struct.error`. -/
def readU32Opt (b : Bytes) (off : Nat) : Option Nat :=
  if off + 4 ≤ b.length then some (readU32 b off) else none

/-- Models `bytes.decode` with codec utf-16-le: pairs of bytes little-endian, surrogate
pairs combined, failing (`none`) on odd length or lone surrogates exactly
as CPython strict decoding does. -/
def decodeUtf16le : Bytes → Option PyStr
  | [] => some []
  | [_] => none
  | b0 :: b1 :: rest =>
    let u := b0 + 256 * b1
    if u < 0xD800 ∨ 0xE000 ≤ u then
      (decodeUtf16le rest).map (u :: ·)
    else if u < 0xDC00 then
      match rest with
      | b2 :: b3 :: rest2 =>
        let v := b2 + 256 * b3
        if 0xDC00 ≤ v ∧ v < 0xE000 then
          (decodeUtf16le rest2).map ((0x10000 + (u - 0xD800) * 0x400 + (v - 0xDC00)) :: ·)
        else none
      | _ => none
    else none

/-- Models `str.encode` with codec utf-16-le: two bytes per BMP code point, four for the
supplementary planes via a surrogate pair; `none` models the
`UnicodeEncodeError` CPython raises on a lone surrogate. -/
def encodeUtf16le : PyStr → Option Bytes
  | [] => some []
  | c :: rest =>
    if 0xD800 ≤ c ∧ c < 0xE000 then none
    else if c < 0x10000 then
      (encodeUtf16le rest).map (fun t => c % 256 :: c / 256 :: t)
    else if c < 0x110000 then
      let x := c - 0x10000
      let hi := 0xD800 + x / 0x400
      let lo := 0xDC00 + x % 0x400
      (encodeUtf16le rest).map (fun t => hi % 256 :: hi / 256 :: lo % 256 :: lo / 256 :: t)
    else none

/-- Models `bytes.decode` with codec utf-8, strict: rejects continuation-byte errors,
overlong encodings, surrogates and code points above 0x10FFFF, as CPython
does (`none` models `UnicodeDecodeError`). -/
def decodeUtf8 : Bytes → Option PyStr
  | [] => some []
  | b :: rest =>
    if b < 0x80 then (decodeUtf8 rest).map (b :: ·)
    else if b < 0xC2 then none
    else if b < 0xE0 then
      match rest with
      | b1 :: rest1 =>
        if 0x80 ≤ b1 ∧ b1 < 0xC0 then
          (decodeUtf8 rest1).map (((b - 0xC0) * 64 + (b1 - 0x80)) :: ·)
        else none
      | _ => none
    else if b < 0xF0 then
      match rest with
      | b1 :: b2 :: rest2 =>
        if 0x80 ≤ b1 ∧ b1 < 0xC0 ∧ 0x80 ≤ b2 ∧ b2 < 0xC0 then
          let c := (b - 0xE0) * 4096 + (b1 - 0x80) * 64 + (b2 - 0x80)
          if c < 0x800 ∨ (0xD800 ≤ c ∧ c < 0xE000) then none
          else (decodeUtf8 rest2).map (c :: ·)
        else none
      | _ => none
    else if b < 0xF5 then
      match rest with
      | b1 :: b2 :: b3 :: rest3 =>
        if 0x80 ≤ b1 ∧ b1 < 0xC0 ∧ 0x80 ≤ b2 ∧ b2 < 0xC0 ∧ 0x80 ≤ b3 ∧ b3 < 0xC0 then
          let c := (b - 0xF0) * 262144 + (b1 - 0x80) * 4096 + (b2 - 0x80) * 64 + (b3 - 0x80)
          if c < 0x10000 ∨ 0x110000 ≤ c then none
          else (decodeUtf8 rest3).map (c :: ·)
        else none
      | _ => none
    else none

/-! ## blob_parser.py -/

def _CAT_MAGIC : Nat := 0x13
def _NAME_LEN_OFFSET : Nat := 12
def _NAME_START : Nat := 20
def _MAX_NAME_CHARS : Nat := 500

/-- Translation of `blob_parser.unpack_blob`.  The LZ4 probe is attempted first: with more
than 8 bytes of input, the 4-byte size prefix is read and, when it falls in
the plausible window `20 < size < 10_000`, the remainder is decompressed
with that expected size; a successful decompression whose output starts
with the magic yields the compressed interpretation.  An `LZ4BlockError`
(`lz4decompress` returning `none`) or a failed magic/length check falls
through to the raw-format check. -/
def unpack_blob (lz4decompress : Bytes → Nat → Option Bytes) (blob : Bytes) :
    Except String (Bytes × Bool) :=
  let probe : Option (Bytes × Bool) :=
    if blob.length > 8 then
      let size := readU32 blob 0
      if 20 < size ∧ size < 10000 then
        match lz4decompress (blob.drop 4) size with
        | some data =>
          if data.length ≥ _NAME_START ∧ readU32 data 0 = _CAT_MAGIC then
            some (data, true)
          else none
        | none => none
      else none
    else none
  match probe with
  | some r => .ok r
  | none =>
    if blob.length ≥ _NAME_START ∧ readU32 blob 0 = _CAT_MAGIC then
      .ok (blob, false)
    else
      .error ("Not a valid cat blob (neither LZ4-compressed nor raw)")

/-- Translation of `blob_parser.pack_blob`: the compressed form is the decompressed byte
length as a u32 prefix followed by the LZ4 block (`store_size=False`);
the raw form is the data itself. -/
def pack_blob (lz4compress : Bytes → Bytes) (raw_data : Bytes) (is_compressed : Bool) :
    Bytes :=
  if is_compressed then packU32 raw_data.length ++ lz4compress raw_data
  else raw_data

/-- Translation of `blob_parser.parse_display_name`. -/
def parse_display_name (lz4decompress : Bytes → Nat → Option Bytes) (blob : Bytes) :
    Except String (PyStr × Nat × Nat) :=
  match unpack_blob lz4decompress blob with
  | .error e => .error e
  | .ok (data, _) =>
    let name_len := readU32 data _NAME_LEN_OFFSET
    if name_len = 0 then .ok ([], _NAME_START, 0)
    else if name_len > _MAX_NAME_CHARS then
      .error ("Name length " ++ toString name_len ++ " exceeds safety limit of "
        ++ toString _MAX_NAME_CHARS ++ " chars (likely corrupted blob)")
    else
      let name_byte_count := name_len * 2
      let name_end := _NAME_START + name_byte_count
      if name_end > data.length then
        .error ("Name extends beyond data: need " ++ toString name_end
          ++ " bytes, data has " ++ toString data.length)
      else
        match decodeUtf16le ((data.drop _NAME_START).take name_byte_count) with
        | some name => .ok (name, _NAME_START, name_byte_count)
        | none => .error ("UnicodeDecodeError")

/-! ## name_modifier.py -/

def MAX_NAME_LEN : Nat := 24
def MIN_NAME_LEN : Nat := 1

/-- Models Python `str.startswith`: list-of-code-points prefix test (here
applied to Lean `String` values via their character data). -/
def pyStartsWith (s p : String) : Bool :=
  p.data.isPrefixOf s.data

/-- Translation of `name_modifier.validate_new_name`.  The Unicode
printability predicate is the parameter `pyIsPrintable`.  The four issue
messages are appended in source order; only the last one carries the
Warning tag. -/
def validate_new_name (pyIsPrintable : Nat → Bool) (name : PyStr) : List String :=
  (if name.length < MIN_NAME_LEN then
    ["Name must be at least " ++ toString MIN_NAME_LEN ++ " character(s)"]
   else []) ++
  (if name.length > MAX_NAME_LEN then
    ["Name must be at most " ++ toString MAX_NAME_LEN ++ " characters (got "
      ++ toString name.length ++ ")"]
   else []) ++
  (if ¬ name.all pyIsPrintable then ["Name contains non-printable characters"] else []) ++
  (if ¬ name.all (· < 128) then
    ["Warning: non-ASCII characters may not render correctly in-game"]
   else [])

/-- Body of `name_modifier.replace_display_name` after the validation gate:
unpack, splice the new count field and UTF-16LE name bytes between the
preserved header parts and the tail, repack with the original flag. -/
def replace_core (lz4compress : Bytes → Bytes) (lz4decompress : Bytes → Nat → Option Bytes)
    (blob : Bytes) (new_name : PyStr) : Except String Bytes :=
  match unpack_blob lz4decompress blob with
  | .error e => .error e
  | .ok (data, is_compressed) =>
    let old_name_len := readU32 data _NAME_LEN_OFFSET
    let old_name_end := _NAME_START + old_name_len * 2
    match encodeUtf16le new_name with
    | none => .error ("UnicodeEncodeError")
    | some new_name_encoded =>
      .ok (pack_blob lz4compress
        (data.take _NAME_LEN_OFFSET
          ++ packU32 new_name.length
          ++ (data.drop (_NAME_LEN_OFFSET + 4)).take (_NAME_START - (_NAME_LEN_OFFSET + 4))
          ++ new_name_encoded
          ++ data.drop old_name_end)
        is_compressed)

/-- Translation of `name_modifier.replace_display_name`: validation issues
not tagged as warnings block the rename before any blob data is read. -/
def replace_display_name (lz4compress : Bytes → Bytes)
    (lz4decompress : Bytes → Nat → Option Bytes) (pyIsPrintable : Nat → Bool)
    (blob : Bytes) (new_name : PyStr) : Except String Bytes :=
  let errors := (validate_new_name pyIsPrintable new_name).filter
    (fun e => ! pyStartsWith e ("Warning"))
  if errors ≠ [] then .error (String.intercalate ("; ") errors)
  else replace_core lz4compress lz4decompress blob new_name

/-! ## save_manager.py

The SQLite row store is an association list from keys to the data column;
the UPDATE and SELECT operations actually performed by the external store
are parameters, so that a store that silently drops a write is expressible.
The honest semantics `sqlUpdate` / `sqlSelect` are given alongside. -/

abbrev Store := List (Nat × Bytes)

/-- Honest semantics of `UPDATE t SET data = v WHERE key = k`. -/
def sqlUpdate (db : Store) (k : Nat) (v : Bytes) : Store :=
  db.map fun r => if r.1 = k then (r.1, v) else r

/-- Honest semantics of `SELECT data FROM t WHERE key = k` (first row or
absence). -/
def sqlSelect (db : Store) (k : Nat) : Option Bytes :=
  (db.find? fun r => r.1 = k).map (·.2)

/-- Translation of `save_manager.write_blob`: run the UPDATE, read the same
key back, and fail unless the row exists and its bytes equal the new blob.
`exec_update` and `query` are the row-store operations as actually executed
by the external collaborator. -/
def write_blob (exec_update : Store → Nat → Bytes → Store)
    (query : Store → Nat → Option Bytes) (db : Store) (key : Nat)
    (new_blob : Bytes) : Except String Unit :=
  let db1 := exec_update db key new_blob
  match query db1 key with
  | none => .error ("Write verification failed — blob mismatch after write")
  | some row =>
    if row ≠ new_blob then
      .error ("Write verification failed — blob mismatch after write")
    else .ok ()

/-- Filesystems are association lists from path identifiers to contents. -/
abbrev FS := List (Nat × Bytes)

/-- Models reading a file: first entry for a path, or absence. -/
def fsRead (fs : FS) (p : Nat) : Option Bytes :=
  (fs.find? fun e => e.1 = p).map (·.2)

/-- Models `Path.unlink(missing_ok=True)`: remove the path. -/
def fsUnlink (fs : FS) (p : Nat) : FS :=
  fs.filter fun e => e.1 ≠ p

/-- Translation of `save_manager._file_sha256`: hash of the file contents,
with the digest function `sha256` a parameter and `none` modelling the
`FileNotFoundError` of opening a missing path. -/
def _file_sha256 (sha256 : Bytes → Nat) (fs : FS) (p : Nat) : Option Nat :=
  (fsRead fs p).map sha256

/-- Translation of `save_manager.create_backup`, after the backup path has
been generated: run the (possibly corrupting) `copy2` operation, then
compare source and backup digests; on mismatch delete the backup and fail.
Returns the filesystem after the call together with the outcome.  A missing
file during hashing propagates as the distinct FileNotFoundError (with no
deletion), exactly as an exception from `open` would in the source. -/
def create_backup (sha256 : Bytes → Nat) (copy2 : FS → FS) (fs : FS)
    (save_path backup_path : Nat) : FS × Except String Nat :=
  let fs1 := copy2 fs
  match _file_sha256 sha256 fs1 save_path, _file_sha256 sha256 fs1 backup_path with
  | some hsrc, some hbak =>
    if hsrc ≠ hbak then
      (fsUnlink fs1 backup_path,
        .error ("Backup integrity check failed — hashes do not match"))
    else (fs1, .ok backup_path)
  | _, _ => (fs1, .error ("FileNotFoundError"))

/-! ## gpak_manager.py -/

/-- Error cases of `gpak_manager.parse_file_table`.  `structError` stands
for an unguarded out-of-bounds `struct.unpack_from`; the safety theorem
shows it never occurs.  The entry-indexed constructors carry the
`len(entries)` value interpolated into the source error messages. -/
inductive GpakError where
  | tooSmall : GpakError
  | unreasonableCount : Nat → GpakError
  | truncatedTable : Nat → GpakError
  | invalidPathLen : Nat → Nat → GpakError
  | unicodeDecodeError : GpakError
  | structError : GpakError
deriving DecidableEq, Repr

/-- One parsed file-table entry of `gpak_manager.parse_file_table`. -/
structure GpakEntry where
  path : PyStr
  size : Nat
  offset : Nat
deriving DecidableEq, Repr

/-- The per-entry loop of `parse_file_table`: `k` entries remain, `pos` is
the cursor into `buf`, `entries` the accumulator.  Returns the entries as
`(path, size)` pairs along with the final cursor. -/
def parse_table_loop (buf : Bytes) :
    Nat → Nat → List (PyStr × Nat) → Except GpakError (List (PyStr × Nat) × Nat)
  | 0, pos, entries => .ok (entries, pos)
  | k + 1, pos, entries =>
    if pos + 6 > buf.length then .error (.truncatedTable entries.length)
    else
      match readU16Opt buf pos with
      | none => .error .structError
      | some path_len =>
        let pos1 := pos + 2
        if path_len > 1024 ∨ pos1 + path_len + 4 > buf.length then
          .error (.invalidPathLen path_len entries.length)
        else
          match decodeUtf8 ((buf.drop pos1).take path_len) with
          | none => .error .unicodeDecodeError
          | some path =>
            let pos2 := pos1 + path_len
            match readU32Opt buf pos2 with
            | none => .error .structError
            | some data_size =>
              parse_table_loop buf k (pos2 + 4) (entries ++ [(path, data_size)])

/-- Offset assignment after the table: each entry starts at the running sum
of the preceding sizes. -/
def assignOffsets : List (PyStr × Nat) → Nat → List GpakEntry
  | [], _ => []
  | (p, s) :: rest, off => ⟨p, s, off⟩ :: assignOffsets rest (off + s)

/-- Translation of `gpak_manager.parse_file_table`: the whole gpak file is
`gpak`; the 4-byte count header is read, bounded, and the table walked
inside the 2 MB buffer read after the header. -/
def parse_file_table (gpak : Bytes) : Except GpakError (List GpakEntry) :=
  if gpak.length < 4 then .error .tooSmall
  else
    let file_count := readU32 gpak 0
    if file_count > 100000 then .error (.unreasonableCount file_count)
    else
      let buf := (gpak.drop 4).take (2 * 1024 * 1024)
      match parse_table_loop buf file_count 0 [] with
      | .error e => .error e
      | .ok (entries, pos) =>
        let data_start := 4 + pos
        .ok (assignOffsets entries data_start)

/-- Models the last-wins dict build `{e[path]: e for e in entries}` followed
by lookup. -/
def entryLookup (entries : List GpakEntry) (fp : PyStr) : Option GpakEntry :=
  (entries.filter fun e => e.path = fp).getLast?

/-- Translation of `gpak_manager.extract_files`: parse the table, then for
each requested path present in the table seek to its offset and read its
declared size (`seek` past the end of file followed by `read` returns the
available bytes, i.e. `drop` then `take`). -/
def extract_files (gpak : Bytes) (file_paths : List PyStr) :
    Except GpakError (List (PyStr × Bytes)) :=
  match parse_file_table gpak with
  | .error e => .error e
  | .ok entries =>
    .ok (file_paths.filterMap fun fp =>
      (entryLookup entries fp).map fun e => (fp, (gpak.drop e.offset).take e.size))

/-! ## Concrete instantiations used by witnesses and counterexamples -/

/-- Witness compressor: identity, which together with `idDecompress`
satisfies the LZ4 block contract assumed by the round-trip theorems. -/
def idCompress : Bytes → Bytes := id

/-- Witness decompressor: succeeds exactly when the declared uncompressed
size matches, as `lz4.block.decompress` does with `uncompressed_size`. -/
def idDecompress : Bytes → Nat → Option Bytes :=
  fun b n => if b.length = n then some b else none

/-- Printability oracle for concrete runs: every code point printable.
This agrees with Python `str.isprintable` on every code point appearing in
the concrete inputs below (letters and U+10000, category Lo). -/
def allPrintable : Nat → Bool := fun _ => true

/-- Raw cat blob: magic, seed 1..8, name count 0, zero padding, two tail
bytes 170 and 187. -/
def blob0 : Bytes :=
  [19, 0, 0, 0, 1, 2, 3, 4, 5, 6, 7, 8, 0, 0, 0, 0, 0, 0, 0, 0, 170, 187]

/-- Decoded record of exactly the 20-byte header: magic, seed, count 0,
padding, empty tail.  A valid record by the spec invariant. -/
def d20 : Bytes :=
  [19, 0, 0, 0, 1, 2, 3, 4, 5, 6, 7, 8, 0, 0, 0, 0, 0, 0, 0, 0]

/-- Decoded record of 21 bytes: header plus a one-byte tail. -/
def d21 : Bytes :=
  [19, 0, 0, 0, 1, 2, 3, 4, 5, 6, 7, 8, 0, 0, 0, 0, 0, 0, 0, 0, 170]

/-- Raw cat blob with a one-character name A and two tail bytes. -/
def blob2 : Bytes :=
  [19, 0, 0, 0, 1, 2, 3, 4, 5, 6, 7, 8, 1, 0, 0, 0, 0, 0, 0, 0, 65, 0, 170, 187]

/-- The one-character name U+10000 (a supplementary-plane code point,
printable per the Unicode database, non-ASCII so only warned about). -/
def name0 : PyStr := [65536]

/-- Gpak whose header declares one entry but whose table buffer holds only
two bytes: the loop must stop with the truncated-table error at entry 0. -/
def gpak3 : Bytes := [1, 0, 0, 0, 5, 0]

/-- Gpak with one entry: path a, declared size 100, data region holding
only the two bytes 7 and 8 — the declared size overruns the file. -/
def gpak4 : Bytes := [1, 0, 0, 0, 1, 0, 97, 100, 0, 0, 0, 7, 8]

/-! ## Helper lemmas -/

lemma packU32_append_drop (n : Nat) (r : Bytes) : (packU32 n ++ r).drop 4 = r := rfl

lemma readU32_packU32_append (n : Nat) (r : Bytes) (h : n < 4294967296) :
    readU32 (packU32 n ++ r) 0 = n := by
  show n % 256 + 256 * (n / 256 % 256) + 65536 * (n / 65536 % 256)
    + 16777216 * (n / 16777216 % 256) = n
  omega

lemma length_packU32_append (n : Nat) (r : Bytes) :
    (packU32 n ++ r).length = 4 + r.length := by
  simp [packU32]; omega

/-- Raw detection: when the first word is the magic, the plausible-size
window of the LZ4 probe cannot match it, so any sufficiently long blob is
returned unchanged as uncompressed. -/
lemma unpack_blob_raw (lz4decompress : Bytes → Nat → Option Bytes) (blob : Bytes)
    (hlen : _NAME_START ≤ blob.length) (hmagic : readU32 blob 0 = _CAT_MAGIC) :
    unpack_blob lz4decompress blob = .ok (blob, false) := by
  unfold unpack_blob
  rw [hmagic]
  simp [_CAT_MAGIC, _NAME_START] at hlen ⊢
  simp [hlen]

/-- Compressed detection: a long-enough blob whose size prefix is in the
window and decompresses to magic-led data of header length is classified
compressed. -/
lemma unpack_blob_compressed (lz4decompress : Bytes → Nat → Option Bytes)
    (blob data : Bytes) (h8 : 8 < blob.length)
    (hwin : 20 < readU32 blob 0 ∧ readU32 blob 0 < 10000)
    (hdec : lz4decompress (blob.drop 4) (readU32 blob 0) = some data)
    (hd : _NAME_START ≤ data.length) (hm : readU32 data 0 = _CAT_MAGIC) :
    unpack_blob lz4decompress blob = .ok (data, true) := by
  unfold unpack_blob
  simp only [if_pos h8, if_pos hwin, hdec, gt_iff_lt, ge_iff_le]
  rw [if_pos ⟨hd, hm⟩]

/-! ## Claim theorems -/

/-- C9: any input blob whose first little-endian word is the magic
constant 0x13 = 19 and whose length is at least the 20-byte header is
returned unchanged with `is_compressed = false`, for every decompressor:
19 lies below the plausible-size window (20, 10000), so the compressed
probe is never attempted. -/
theorem C9_raw_magic_never_compressed (lz4decompress : Bytes → Nat → Option Bytes)
    (blob : Bytes) (hlen : _NAME_START ≤ blob.length)
    (hmagic : readU32 blob 0 = _CAT_MAGIC) :
    unpack_blob lz4decompress blob = .ok (blob, false) :=
  unpack_blob_raw lz4decompress blob hlen hmagic

/-- Witness for C9 at the concrete raw blob `blob0`. -/
theorem C9_raw_magic_never_compressed_witness :
    unpack_blob idDecompress blob0 = .ok (blob0, false) :=
  C9_raw_magic_never_compressed idDecompress blob0 (by decide) (by decide)

/-- C2 fails as stated: the 20-byte record `d20` is a valid decoded record
(magic, zero name count, empty tail), yet encoding it with the compressed
flag and decoding again reports a format error, because the stored size 20
falls outside the strict plausible-size window `20 < size < 10000`.  The
codec used satisfies the LZ4 round-trip contract, and the failure is
independent of the codec: the probe is skipped on the size prefix alone. -/
theorem C2_counterexample :
    unpack_blob idDecompress (pack_blob idCompress d20 true) =
      .error ("Not a valid cat blob (neither LZ4-compressed nor raw)")
    ∧ d20.length = _NAME_START
    ∧ readU32 d20 0 = _CAT_MAGIC
    ∧ readU32 d20 _NAME_LEN_OFFSET = 0
    ∧ idDecompress (idCompress d20) d20.length = some d20 :=
  ⟨rfl, by decide, by decide, by decide, by decide⟩

/-- C2 (amended): for every valid decoded record, decode after encode is
the identity and reports the same flag — unconditionally for the
uncompressed flag, and for the compressed flag provided the decoded length
lies strictly inside the plausible-size window (20, 10000) and the
compressed payload is longer than 4 bytes, under the LZ4 block contract
that decompressing a compressed payload at its original length succeeds. -/
theorem C2_roundtrip (lz4compress : Bytes → Bytes)
    (lz4decompress : Bytes → Nat → Option Bytes)
    (hrt : ∀ d : Bytes, lz4decompress (lz4compress d) d.length = some d)
    (data : Bytes) (flag : Bool)
    (hlen : _NAME_START ≤ data.length) (hmagic : readU32 data 0 = _CAT_MAGIC)
    (hcomp : flag = true →
      20 < data.length ∧ data.length < 10000 ∧ 4 < (lz4compress data).length) :
    unpack_blob lz4decompress (pack_blob lz4compress data flag) = .ok (data, flag) := by
  cases flag with
  | false =>
    rw [pack_blob, if_neg (by simp)]
    exact unpack_blob_raw lz4decompress data hlen hmagic
  | true =>
    obtain ⟨h20, h10k, hclen⟩ := hcomp rfl
    rw [pack_blob, if_pos rfl]
    have hsize : readU32 (packU32 data.length ++ lz4compress data) 0 = data.length :=
      readU32_packU32_append _ _ (by omega)
    apply unpack_blob_compressed
    · rw [length_packU32_append]; omega
    · rw [hsize]; exact ⟨h20, h10k⟩
    · rw [hsize, packU32_append_drop]; exact hrt data
    · exact hlen
    · exact hmagic

/-- Witness for the amended C2 at the 21-byte record `d21`, for both
compression flags, with the identity codec (which satisfies the assumed
LZ4 contract). -/
theorem C2_roundtrip_witness :
    unpack_blob idDecompress (pack_blob idCompress d21 true) = .ok (d21, true)
    ∧ unpack_blob idDecompress (pack_blob idCompress d21 false) = .ok (d21, false) :=
  ⟨C2_roundtrip idCompress idDecompress (fun d => by simp [idCompress, idDecompress])
      d21 true (by decide) (by decide) (fun _ => by decide),
   C2_roundtrip idCompress idDecompress (fun d => by simp [idCompress, idDecompress])
      d21 false (by decide) (by decide) (by simp)⟩

/-- The blob produced by `replace_display_name idCompress idDecompress
allPrintable blob0 name0`: the count field stores 1 (the Python character
count of `name0`) but the spliced UTF-16LE name occupies 4 bytes. -/
def modified0 : Bytes :=
  [19, 0, 0, 0, 1, 2, 3, 4, 5, 6, 7, 8, 1, 0, 0, 0, 0, 0, 0, 0, 0, 216, 0, 220, 170, 187]

/-- C1 fails on the code: renaming the raw blob `blob0` (empty name, tail
bytes 170 187) to the validation-accepted one-character name U+10000
produces a blob whose decoded tail, located via the stored count field, is
the four bytes 0 220 170 187 — the low surrogate leaks into the tail, so
the tail differs from the input tail in both length and content.  The
count field records Python characters while the name field holds UTF-16
code units, and the two disagree outside the Basic Multilingual Plane. -/
theorem C1_tail_changed :
    replace_display_name idCompress idDecompress allPrintable blob0 name0 = .ok modified0
    ∧ unpack_blob idDecompress modified0 = .ok (modified0, false)
    ∧ unpack_blob idDecompress blob0 = .ok (blob0, false)
    ∧ modified0.drop (_NAME_START + 2 * readU32 modified0 _NAME_LEN_OFFSET) =
        [0, 220, 170, 187]
    ∧ blob0.drop (_NAME_START + 2 * readU32 blob0 _NAME_LEN_OFFSET) = [170, 187] :=
  ⟨rfl, rfl, rfl, by decide, by decide⟩

/-- The raw-format arm of `unpack_blob` (its fall-through target). -/
def raw_check (blob : Bytes) : Except String (Bytes × Bool) :=
  if blob.length ≥ _NAME_START ∧ readU32 blob 0 = _CAT_MAGIC then .ok (blob, false)
  else .error ("Not a valid cat blob (neither LZ4-compressed nor raw)")

/-- Whenever the compressed probe does not fully succeed — too short an
input, size prefix outside the window, decompression failure, or decoded
bytes failing the magic/length check — `unpack_blob` falls through to the
raw-format check without propagating anything. -/
lemma unpack_blob_fallthrough (lz4decompress : Bytes → Nat → Option Bytes)
    (blob : Bytes)
    (h : ∀ data, blob.length > 8 → 20 < readU32 blob 0 → readU32 blob 0 < 10000 →
      lz4decompress (blob.drop 4) (readU32 blob 0) = some data →
      ¬ (_NAME_START ≤ data.length ∧ readU32 data 0 = _CAT_MAGIC)) :
    unpack_blob lz4decompress blob = raw_check blob := by
  unfold unpack_blob raw_check
  by_cases h8 : blob.length > 8
  · by_cases hwin : 20 < readU32 blob 0 ∧ readU32 blob 0 < 10000
    · cases hdec : lz4decompress (blob.drop 4) (readU32 blob 0) with
      | none => simp only [if_pos h8, if_pos hwin, hdec]
      | some data =>
        simp only [if_pos h8, if_pos hwin, hdec, ge_iff_le,
          if_neg (h data h8 hwin.1 hwin.2 hdec)]
    · simp only [if_pos h8, if_neg hwin]
  · simp only [if_neg h8]

/-- The raw arm never reports the compressed flag. -/
lemma raw_check_ne_compressed (blob data : Bytes) :
    raw_check blob ≠ .ok (data, true) := by
  unfold raw_check
  split <;> simp

/-- C5: `unpack_blob` classifies an input as compressed only when the probe
fully succeeds (long enough input, size prefix inside the window, LZ4
decompression succeeding, decoded magic and length right); a decompression
failure is swallowed and detection falls through to the raw check; and an
error is reported, naming both failed attempts in one message, exactly
when both the probe and the raw check fail. -/
theorem C5_detection (lz4decompress : Bytes → Nat → Option Bytes) (blob : Bytes) :
    (∀ data : Bytes, unpack_blob lz4decompress blob = .ok (data, true) →
      blob.length > 8 ∧ 20 < readU32 blob 0 ∧ readU32 blob 0 < 10000
      ∧ lz4decompress (blob.drop 4) (readU32 blob 0) = some data
      ∧ _NAME_START ≤ data.length ∧ readU32 data 0 = _CAT_MAGIC)
    ∧ (lz4decompress (blob.drop 4) (readU32 blob 0) = none →
        unpack_blob lz4decompress blob = raw_check blob)
    ∧ (∀ msg, unpack_blob lz4decompress blob = .error msg →
        msg = "Not a valid cat blob (neither LZ4-compressed nor raw)"
        ∧ ¬ (_NAME_START ≤ blob.length ∧ readU32 blob 0 = _CAT_MAGIC)
        ∧ ∀ data, blob.length > 8 → 20 < readU32 blob 0 → readU32 blob 0 < 10000 →
            lz4decompress (blob.drop 4) (readU32 blob 0) = some data →
            ¬ (_NAME_START ≤ data.length ∧ readU32 data 0 = _CAT_MAGIC)) := by
  refine ⟨?_, ?_, ?_⟩
  · intro data h
    by_cases h8 : blob.length > 8
    · by_cases hwin : 20 < readU32 blob 0 ∧ readU32 blob 0 < 10000
      · cases hdec : lz4decompress (blob.drop 4) (readU32 blob 0) with
        | none =>
          rw [unpack_blob_fallthrough lz4decompress blob
            (fun d _ _ _ hd' => by rw [hdec] at hd'; exact absurd hd' (by simp))] at h
          exact absurd h (raw_check_ne_compressed blob data)
        | some d2 =>
          by_cases hok : _NAME_START ≤ d2.length ∧ readU32 d2 0 = _CAT_MAGIC
          · have heq := unpack_blob_compressed lz4decompress blob d2 h8 hwin hdec hok.1 hok.2
            rw [heq] at h
            have hd2 : d2 = data := by
              have := h
              simp only [Except.ok.injEq, Prod.mk.injEq] at this
              exact this.1
            subst hd2
            exact ⟨h8, hwin.1, hwin.2, rfl, hok.1, hok.2⟩
          · rw [unpack_blob_fallthrough lz4decompress blob
              (fun d _ _ _ hd' => by
                rw [hdec] at hd'
                have hdd : d2 = d := by simpa using hd'
                rw [← hdd]; exact hok)] at h
            exact absurd h (raw_check_ne_compressed blob data)
      · rw [unpack_blob_fallthrough lz4decompress blob
          (fun d _ hw1 hw2 _ => absurd ⟨hw1, hw2⟩ hwin)] at h
        exact absurd h (raw_check_ne_compressed blob data)
    · rw [unpack_blob_fallthrough lz4decompress blob
        (fun d h8' _ _ _ => absurd h8' h8)] at h
      exact absurd h (raw_check_ne_compressed blob data)
  · intro hdec
    exact unpack_blob_fallthrough lz4decompress blob
      (fun d _ _ _ hd' => by rw [hdec] at hd'; exact absurd hd' (by simp))
  · intro msg h
    have h0 := h
    have hfall : unpack_blob lz4decompress blob = raw_check blob := by
      refine unpack_blob_fallthrough lz4decompress blob ?_
      intro data h8 hw1 hw2 hdec hok
      have := unpack_blob_compressed lz4decompress blob data h8 ⟨hw1, hw2⟩ hdec hok.1 hok.2
      rw [this] at h0
      exact Except.noConfusion h0
    rw [hfall] at h
    unfold raw_check at h
    by_cases hraw : blob.length ≥ _NAME_START ∧ readU32 blob 0 = _CAT_MAGIC
    · rw [if_pos hraw] at h
      exact Except.noConfusion h
    · rw [if_neg hraw] at h
      have hmsg : msg = "Not a valid cat blob (neither LZ4-compressed nor raw)" := by
        have := h
        simp only [Except.error.injEq] at this
        exact this.symm
      refine ⟨hmsg, hraw, ?_⟩
      intro data h8 hw1 hw2 hdec hok
      have := unpack_blob_compressed lz4decompress blob data h8 ⟨hw1, hw2⟩ hdec hok.1 hok.2
      rw [this] at h0
      exact Except.noConfusion h0

/-- Decompressor that always fails, for exercising the swallowed-error
fall-through concretely. -/
def noneDecompress : Bytes → Nat → Option Bytes := fun _ _ => none

/-- Witness for C5: a raw blob under an always-failing decompressor still
decodes through the raw arm — the decompression failure is swallowed. -/
theorem C5_detection_witness :
    unpack_blob noneDecompress blob0 = .ok (blob0, false) := by
  have h := (C5_detection noneDecompress blob0).2.1 rfl
  rw [h]
  unfold raw_check
  rw [if_pos (by decide)]

/-- C6: for any blob accepted by `unpack_blob`, `parse_display_name`
returns the empty name when the stored count is zero, a format error once
the count exceeds the 500-character safety ceiling, a format error when
the `count * 2`-byte slice at offset 20 would overrun the decoded buffer,
and otherwise exactly that slice decoded as UTF-16LE. -/
theorem C6_parse_display_name (lz4decompress : Bytes → Nat → Option Bytes)
    (blob data : Bytes) (c : Bool)
    (h : unpack_blob lz4decompress blob = .ok (data, c)) :
    (readU32 data _NAME_LEN_OFFSET = 0 →
      parse_display_name lz4decompress blob = .ok ([], _NAME_START, 0))
    ∧ (_MAX_NAME_CHARS < readU32 data _NAME_LEN_OFFSET →
      parse_display_name lz4decompress blob =
        .error ("Name length " ++ toString (readU32 data _NAME_LEN_OFFSET)
          ++ " exceeds safety limit of " ++ toString _MAX_NAME_CHARS
          ++ " chars (likely corrupted blob)"))
    ∧ (0 < readU32 data _NAME_LEN_OFFSET →
      readU32 data _NAME_LEN_OFFSET ≤ _MAX_NAME_CHARS →
      data.length < _NAME_START + readU32 data _NAME_LEN_OFFSET * 2 →
      parse_display_name lz4decompress blob =
        .error ("Name extends beyond data: need "
          ++ toString (_NAME_START + readU32 data _NAME_LEN_OFFSET * 2)
          ++ " bytes, data has " ++ toString data.length))
    ∧ (0 < readU32 data _NAME_LEN_OFFSET →
      readU32 data _NAME_LEN_OFFSET ≤ _MAX_NAME_CHARS →
      _NAME_START + readU32 data _NAME_LEN_OFFSET * 2 ≤ data.length →
      ∀ name, decodeUtf16le
          ((data.drop _NAME_START).take (readU32 data _NAME_LEN_OFFSET * 2)) = some name →
      parse_display_name lz4decompress blob =
        .ok (name, _NAME_START, readU32 data _NAME_LEN_OFFSET * 2)) := by
  have e1 : _MAX_NAME_CHARS = 500 := rfl
  have e2 : _NAME_START = 20 := rfl
  unfold parse_display_name
  rw [h]
  dsimp only
  refine ⟨?_, ?_, ?_, ?_⟩
  · intro h0
    rw [if_pos h0]
  · intro hbig
    rw [if_neg (by omega), if_pos hbig]
  · intro hpos hle hover
    rw [if_neg (by omega), if_neg (by omega), if_pos (by omega)]
  · intro hpos hle hfits name hdec
    rw [if_neg (by omega), if_neg (by omega), if_neg (by omega), hdec]

/-- Witness for C6 at the raw blob `blob2` holding the one-character name
A: the two name bytes at offset 20 decode to that character. -/
theorem C6_parse_display_name_witness :
    parse_display_name idDecompress blob2 = .ok ([65], _NAME_START, 2) :=
  (C6_parse_display_name idDecompress blob2 blob2 false rfl).2.2.2
    (by decide) (by decide) (by decide) [65] (by decide)

/-- C3: `write_blob` reports success only when the read-back of the same
key after the UPDATE returns exactly the written bytes; if the read-back
row is absent or its bytes differ, it raises the write-verification error
instead of returning normally — whatever the external row store actually
did with the UPDATE. -/
theorem C3_write_blob_verifies (exec_update : Store → Nat → Bytes → Store)
    (query : Store → Nat → Option Bytes) (db : Store) (key : Nat)
    (new_blob : Bytes) :
    (query (exec_update db key new_blob) key ≠ some new_blob →
      write_blob exec_update query db key new_blob =
        .error ("Write verification failed — blob mismatch after write"))
    ∧ (write_blob exec_update query db key new_blob = .ok () →
      query (exec_update db key new_blob) key = some new_blob) := by
  unfold write_blob
  dsimp only
  cases hq : query (exec_update db key new_blob) key with
  | none =>
    refine ⟨fun _ => rfl, fun hok => ?_⟩
    exact Except.noConfusion hok
  | some row =>
    simp only [ne_eq]
    by_cases hrow : row = new_blob
    · subst hrow
      rw [if_neg (fun hc => hc rfl)]
      refine ⟨fun hne => absurd rfl hne, fun _ => rfl⟩
    · rw [if_pos hrow]
      refine ⟨fun _ => rfl, fun hok => ?_⟩
      exact Except.noConfusion hok

/-- Row store that silently drops every UPDATE. -/
def dropUpdate : Store → Nat → Bytes → Store := fun db _ _ => db

/-- A one-row store still holding the old bytes. -/
def db0 : Store := [(1, [0])]

/-- Witness for C3: against the silently-dropping store, writing new bytes
fails at the verification stage instead of reporting success. -/
theorem C3_write_blob_verifies_witness :
    write_blob dropUpdate sqlSelect db0 1 [1] =
      .error ("Write verification failed — blob mismatch after write") :=
  (C3_write_blob_verifies dropUpdate sqlSelect db0 1 [1]).1 (by decide)

/-- Deleting a path removes it: a read of that path afterwards is absent. -/
lemma fsRead_fsUnlink (fs : FS) (p : Nat) : fsRead (fsUnlink fs p) p = none := by
  unfold fsRead fsUnlink
  rw [Option.map_eq_none', List.find?_eq_none]
  intro x hx
  have hmem := List.of_mem_filter hx
  simpa using hmem

/-- C4: `create_backup` either returns the backup path with the digests of
source and copy equal on the resulting filesystem, or — when the digests
differ after the copy — deletes the backup file and raises the integrity
error, leaving no backup behind whose hash does not match the source. -/
theorem C4_create_backup_atomic (sha256 : Bytes → Nat) (copy2 : FS → FS)
    (fs : FS) (save_path backup_path : Nat) (src bak : Bytes)
    (hs : fsRead (copy2 fs) save_path = some src)
    (hb : fsRead (copy2 fs) backup_path = some bak) :
    (sha256 src = sha256 bak →
      create_backup sha256 copy2 fs save_path backup_path =
        (copy2 fs, .ok backup_path))
    ∧ (sha256 src ≠ sha256 bak →
      create_backup sha256 copy2 fs save_path backup_path =
        (fsUnlink (copy2 fs) backup_path,
          .error ("Backup integrity check failed — hashes do not match"))
      ∧ fsRead (fsUnlink (copy2 fs) backup_path) backup_path = none) := by
  unfold create_backup _file_sha256
  dsimp only
  rw [hs, hb]
  simp only [Option.map_some', ne_eq]
  constructor
  · intro heq
    rw [if_neg (fun hc => hc heq)]
  · intro hne
    rw [if_pos hne]
    exact ⟨rfl, fsRead_fsUnlink (copy2 fs) backup_path⟩

/-- Copy operation that corrupts the copy: it creates path 2 with the bytes
9 instead of the source contents. -/
def copyCorrupt : FS → FS := fun fs => (2, [9]) :: fs

/-- A digest usable in concrete runs: the byte sum. -/
def sumDigest : Bytes → Nat := fun b => b.sum

/-- One-file filesystem: path 1 holds the byte 5. -/
def fs0 : FS := [(1, [5])]

/-- Witness for C4: a corrupted copy makes `create_backup` delete the
partial backup and fail, and the backup path is indeed absent afterwards. -/
theorem C4_create_backup_atomic_witness :
    create_backup sumDigest copyCorrupt fs0 1 2 =
      (fsUnlink (copyCorrupt fs0) 2,
        .error ("Backup integrity check failed — hashes do not match"))
    ∧ fsRead (fsUnlink (copyCorrupt fs0) 2) 2 = none :=
  (C4_create_backup_atomic sumDigest copyCorrupt fs0 1 2 [5] [9]
    (by decide) (by decide)).2 (by decide)

/-- A string that does not start with a given token still does not after
appending anything, provided the token is no longer than the fixed part. -/
lemma pyStartsWith_append_eq_false (pre x p : String)
    (hp : pyStartsWith pre p = false) (hlen : p.length ≤ pre.length) :
    pyStartsWith (pre ++ x) p = false := by
  unfold pyStartsWith at *
  rw [Bool.eq_false_iff] at hp ⊢
  intro hc
  apply hp
  rw [List.isPrefixOf_iff_prefix] at hc ⊢
  rw [String.data_append] at hc
  have hlen' : p.data.length ≤ pre.data.length := hlen
  have h2 := List.prefix_iff_eq_take.mp hc
  rw [List.take_append_of_le_length hlen'] at h2
  rw [h2]
  exact List.take_prefix _ _

/-- The too-long message never carries the Warning tag, whatever length is
interpolated into it. -/
lemma msg2_not_warning (n : Nat) :
    pyStartsWith ("Name must be at most " ++ toString MAX_NAME_LEN
      ++ " characters (got " ++ toString n ++ ")") ("Warning") = false := by
  have hassoc : ("Name must be at most " ++ toString MAX_NAME_LEN
      ++ " characters (got " ++ toString n ++ ")") =
      (("Name must be at most " ++ toString MAX_NAME_LEN ++ " characters (got ")
        ++ (toString n ++ (")"))) := by
    simp [String.append_assoc]
  rw [hassoc]
  exact pyStartsWith_append_eq_false _ _ _ (by decide) (by decide)

lemma filter_single_ite (p : String → Bool) (c : Prop) [Decidable c]
    (m : String) (hm : p m = true) :
    (if c then [m] else []).filter p = if c then [m] else [] := by
  split <;> simp [List.filter, hm]

lemma filter_single_ite_false (p : String → Bool) (c : Prop) [Decidable c]
    (m : String) (hm : p m = false) :
    (if c then [m] else []).filter p = [] := by
  split <;> simp [List.filter, hm]

/-- The blocking (non-Warning) issues of `validate_new_name` are exactly
the two length messages and the printability message, each present iff its
condition holds; the non-ASCII warning is filtered out. -/
lemma validate_errors_eq (pyIsPrintable : Nat → Bool) (name : PyStr) :
    (validate_new_name pyIsPrintable name).filter
      (fun e => ! pyStartsWith e ("Warning")) =
    (if name.length < MIN_NAME_LEN then
      ["Name must be at least " ++ toString MIN_NAME_LEN ++ " character(s)"]
     else []) ++
    (if name.length > MAX_NAME_LEN then
      ["Name must be at most " ++ toString MAX_NAME_LEN ++ " characters (got "
        ++ toString name.length ++ ")"]
     else []) ++
    (if ¬ name.all pyIsPrintable then ["Name contains non-printable characters"]
     else []) := by
  unfold validate_new_name
  rw [List.filter_append, List.filter_append, List.filter_append]
  rw [filter_single_ite _ _ _ (by decide)]
  rw [filter_single_ite _ _ _ (by simp [msg2_not_warning name.length])]
  rw [filter_single_ite _ _ _ (by decide)]
  rw [filter_single_ite_false _ _ _ (by decide)]
  rw [List.append_nil]

/-- C7: `replace_display_name` rejects a candidate name before reading any
blob data exactly when its character count is below the minimum 1 or above
the maximum 24 or the name is not printable; a merely non-ASCII name is
flagged with the non-blocking warning message and the rename proceeds to
the mutation body. -/
theorem C7_validation_gate (pyIsPrintable : Nat → Bool) (name : PyStr) :
    ((validate_new_name pyIsPrintable name).filter
        (fun e => ! pyStartsWith e ("Warning")) ≠ []
      ↔ (name.length < MIN_NAME_LEN ∨ MAX_NAME_LEN < name.length
          ∨ ¬ name.all pyIsPrintable))
    ∧ (∀ (lz4compress : Bytes → Bytes)
        (lz4decompress : Bytes → Nat → Option Bytes) (blob : Bytes),
        (validate_new_name pyIsPrintable name).filter
          (fun e => ! pyStartsWith e ("Warning")) ≠ [] →
        replace_display_name lz4compress lz4decompress pyIsPrintable blob name =
          .error (String.intercalate ("; ")
            ((validate_new_name pyIsPrintable name).filter
              (fun e => ! pyStartsWith e ("Warning")))))
    ∧ (∀ (lz4compress : Bytes → Bytes)
        (lz4decompress : Bytes → Nat → Option Bytes) (blob : Bytes),
        (validate_new_name pyIsPrintable name).filter
          (fun e => ! pyStartsWith e ("Warning")) = [] →
        replace_display_name lz4compress lz4decompress pyIsPrintable blob name =
          replace_core lz4compress lz4decompress blob name)
    ∧ (("Warning: non-ASCII characters may not render correctly in-game" ∈
        validate_new_name pyIsPrintable name) ↔ ¬ name.all (· < 128)) := by
  refine ⟨?_, ?_, ?_, ?_⟩
  · rw [validate_errors_eq]
    by_cases hc1 : name.length < MIN_NAME_LEN <;>
      by_cases hc2 : MAX_NAME_LEN < name.length <;>
        by_cases hc3 : name.all pyIsPrintable <;>
          simp [hc1, hc2, hc3]
  · intro lz4compress lz4decompress blob hne
    unfold replace_display_name
    dsimp only
    rw [if_pos hne]
  · intro lz4compress lz4decompress blob heq
    unfold replace_display_name
    dsimp only
    rw [if_neg (fun hc => hc heq)]
  · have n1 : ("Warning: non-ASCII characters may not render correctly in-game")
        ≠ ("Name must be at least " ++ toString MIN_NAME_LEN ++ " character(s)") := by
      decide
    have n2 : ("Warning: non-ASCII characters may not render correctly in-game")
        ≠ ("Name must be at most " ++ toString MAX_NAME_LEN ++ " characters (got "
          ++ toString name.length ++ ")") := by
      intro heq
      have hm := msg2_not_warning name.length
      rw [← heq] at hm
      have ht : pyStartsWith
          ("Warning: non-ASCII characters may not render correctly in-game")
          ("Warning") = true := by decide
      rw [hm] at ht
      exact Bool.noConfusion ht
    have n3 : ("Warning: non-ASCII characters may not render correctly in-game")
        ≠ ("Name contains non-printable characters") := by decide
    unfold validate_new_name
    by_cases hc1 : name.length < MIN_NAME_LEN <;>
      by_cases hc2 : name.length > MAX_NAME_LEN <;>
        by_cases hc3 : name.all pyIsPrintable <;>
          by_cases hc4 : name.all (· < 128) <;>
            simp [hc1, hc2, hc3, hc4, n1, n2, n3]

/-- Witness for C7 at the non-ASCII name `name0`: no blocking error, the
warning is recorded, and the rename proceeds to the mutation body. -/
theorem C7_validation_gate_witness :
    replace_display_name idCompress idDecompress allPrintable blob0 name0 =
      replace_core idCompress idDecompress blob0 name0
    ∧ ("Warning: non-ASCII characters may not render correctly in-game" ∈
        validate_new_name allPrintable name0) :=
  ⟨(C7_validation_gate allPrintable name0).2.2.1 idCompress idDecompress blob0
      (by decide),
   (C7_validation_gate allPrintable name0).2.2.2.mpr (by decide)⟩

/-- Safety invariant of the file-table loop: the guards make every struct
read in-bounds (the `structError` outcome is unreachable), and an indexed
error reports the accumulator length at the failure point, which lies
between the starting index and the declared remaining count. -/
lemma parse_table_loop_safe (buf : Bytes) (k : Nat) :
    ∀ (pos : Nat) (acc : List (PyStr × Nat)),
      parse_table_loop buf k pos acc ≠ .error .structError
      ∧ (∀ i, parse_table_loop buf k pos acc = .error (.truncatedTable i) →
          acc.length ≤ i ∧ i < acc.length + k)
      ∧ (∀ l i, parse_table_loop buf k pos acc = .error (.invalidPathLen l i) →
          acc.length ≤ i ∧ i < acc.length + k) := by
  induction k with
  | zero =>
    intro pos acc
    refine ⟨by simp [parse_table_loop], ?_, ?_⟩
    · intro i hi
      simp [parse_table_loop] at hi
    · intro l i hi
      simp [parse_table_loop] at hi
  | succ n ih =>
    intro pos acc
    unfold parse_table_loop
    by_cases h6 : pos + 6 > buf.length
    · rw [if_pos h6]
      refine ⟨by simp, ?_, ?_⟩
      · intro i hi
        have hacc : acc.length = i := by
          simpa using hi
        omega
      · intro l i hi
        simp at hi
    · rw [if_neg h6]
      have h2 : pos + 2 ≤ buf.length := by omega
      simp only [readU16Opt]
      rw [if_pos h2]
      dsimp only
      by_cases hl : readU16 buf pos > 1024 ∨ pos + 2 + readU16 buf pos + 4 > buf.length
      · rw [if_pos hl]
        refine ⟨by simp, ?_, ?_⟩
        · intro i hi
          simp at hi
        · intro l i hi
          have hacc : readU16 buf pos = l ∧ acc.length = i := by
            simpa using hi
          omega
      · rw [if_neg hl]
        cases hdec : decodeUtf8 ((buf.drop (pos + 2)).take (readU16 buf pos)) with
        | none =>
          refine ⟨by simp, ?_, ?_⟩
          · intro i hi
            simp at hi
          · intro l i hi
            simp at hi
        | some path =>
          have h4 : pos + 2 + readU16 buf pos + 4 ≤ buf.length := by
            push_neg at hl
            omega
          simp only [readU32Opt]
          rw [if_pos h4]
          dsimp only
          obtain ⟨ihA, ihB, ihC⟩ := ih (pos + 2 + readU16 buf pos + 4)
            (acc ++ [(path, readU32 buf (pos + 2 + readU16 buf pos))])
          refine ⟨ihA, ?_, ?_⟩
          · intro i hi
            have hb := ihB i hi
            simp only [List.length_append, List.length_cons, List.length_nil] at hb
            omega
          · intro l i hi
            have hb := ihC l i hi
            simp only [List.length_append, List.length_cons, List.length_nil] at hb
            omega

/-- C8: `parse_file_table` never performs an out-of-bounds read — every
2-byte path length is checked against the remaining buffer and the 1024
ceiling before the path is sliced, so the unguarded-read outcome is
unreachable — and every short-read or bad-length abort carries the index
of the entry reached, a genuine index below the declared file count. -/
theorem C8_parse_file_table_safe (gpak : Bytes) :
    parse_file_table gpak ≠ .error .structError
    ∧ (∀ i, parse_file_table gpak = .error (.truncatedTable i) →
        i < readU32 gpak 0)
    ∧ (∀ l i, parse_file_table gpak = .error (.invalidPathLen l i) →
        i < readU32 gpak 0) := by
  unfold parse_file_table
  by_cases hsmall : gpak.length < 4
  · rw [if_pos hsmall]
    refine ⟨by simp, ?_, ?_⟩
    · intro i hi
      simp at hi
    · intro l i hi
      simp at hi
  · rw [if_neg hsmall]
    by_cases hcount : readU32 gpak 0 > 100000
    · rw [if_pos hcount]
      refine ⟨by simp, ?_, ?_⟩
      · intro i hi
        simp at hi
      · intro l i hi
        simp at hi
    · rw [if_neg hcount]
      dsimp only
      obtain ⟨hA, hB, hC⟩ :=
        parse_table_loop_safe ((gpak.drop 4).take (2 * 1024 * 1024))
          (readU32 gpak 0) 0 []
      cases hres : parse_table_loop ((gpak.drop 4).take (2 * 1024 * 1024))
          (readU32 gpak 0) 0 [] with
      | error e =>
        refine ⟨?_, ?_, ?_⟩
        · intro hcon
          have he : e = .structError := by
            simpa using hcon
          rw [he] at hres
          exact hA hres
        · intro i hi
          have he : e = .truncatedTable i := by
            simpa using hi
          rw [he] at hres
          have hb := hB i hres
          simp only [List.length_nil] at hb
          omega
        · intro l i hi
          have he : e = .invalidPathLen l i := by
            simpa using hi
          rw [he] at hres
          have hb := hC l i hres
          simp only [List.length_nil] at hb
          omega
      | ok res =>
        obtain ⟨entries, fpos⟩ := res
        refine ⟨by simp, ?_, ?_⟩
        · intro i hi
          simp at hi
        · intro l i hi
          simp at hi

/-- Witness for C8: a gpak declaring one entry whose table is cut short
aborts with the truncated-table error carrying index 0, a real entry index
below the declared count. -/
theorem C8_parse_file_table_safe_witness :
    parse_file_table gpak3 = .error (.truncatedTable 0)
    ∧ 0 < readU32 gpak3 0 :=
  ⟨rfl, (C8_parse_file_table_safe gpak3).2.1 0 rfl⟩

/-- C10: `extract_files` never checks declared sizes against the archive
length: whenever the table parses, extraction succeeds for every request
list, each found path maps to the bytes actually available at its computed
offset, and for an entry whose offset plus declared size overruns the
archive the returned slice holds only the bytes to end-of-file — fewer
than declared whenever the offset itself is inside the archive. -/
theorem C10_extract_no_size_check (gpak : Bytes) (file_paths : List PyStr)
    (entries : List GpakEntry) (fp : PyStr) (e : GpakEntry)
    (hparse : parse_file_table gpak = .ok entries)
    (hfind : entryLookup entries fp = some e)
    (hover : gpak.length < e.offset + e.size) :
    extract_files gpak file_paths =
      .ok (file_paths.filterMap fun fp2 =>
        (entryLookup entries fp2).map fun e2 =>
          (fp2, (gpak.drop e2.offset).take e2.size))
    ∧ (fp ∈ file_paths →
        (fp, (gpak.drop e.offset).take e.size) ∈
          file_paths.filterMap fun fp2 =>
            (entryLookup entries fp2).map fun e2 =>
              (fp2, (gpak.drop e2.offset).take e2.size))
    ∧ ((gpak.drop e.offset).take e.size).length = gpak.length - e.offset
    ∧ (e.offset ≤ gpak.length →
        ((gpak.drop e.offset).take e.size).length < e.size) := by
  refine ⟨?_, ?_, ?_, ?_⟩
  · unfold extract_files
    rw [hparse]
  · intro hmem
    rw [List.mem_filterMap]
    exact ⟨fp, hmem, by rw [hfind]; rfl⟩
  · simp only [List.length_take, List.length_drop]
    omega
  · intro hin
    simp only [List.length_take, List.length_drop]
    omega

/-- Witness for C10 at `gpak4`: the single entry declares 100 bytes at
offset 11 of a 13-byte archive; extraction succeeds and returns the two
available bytes. -/
theorem C10_extract_no_size_check_witness :
    extract_files gpak4 [[97]] =
      .ok ([[97]].filterMap fun fp2 =>
        (entryLookup [⟨[97], 100, 11⟩] fp2).map fun e2 =>
          (fp2, (gpak4.drop e2.offset).take e2.size))
    ∧ ((gpak4.drop 11).take 100).length = gpak4.length - 11
    ∧ ((gpak4.drop 11).take 100).length < 100 := by
  have h := C10_extract_no_size_check gpak4 [[97]] [⟨[97], 100, 11⟩] [97]
    ⟨[97], 100, 11⟩ rfl rfl (by decide)
  exact ⟨h.1, h.2.2.1, h.2.2.2 (by decide)⟩

end Mewgenics
